import Mathlib

/-!
Shallow embedding of the resilience core of the repository
(`src/packages/observability/src/resilience.ts` and the enterprise
resilience patterns file under `src/unnamed/part_000`), together with
theorems settling the specification claims about it.

Naming convention: definitions embedding the observability package
(`resilience.ts`) carry the suffix `1` where the two files declare a
class of the same name; definitions embedding the enterprise patterns
file (`src/unnamed/part_000`) carry the suffix `2`.
-/

/-! ## Resilience Manager pipeline composition (resilience.ts, lines 207-235)

`ResilienceManager.execute(service, operation)` successively rewraps the
operation: first the Circuit Breaker (if one is registered for the
service), then the Retry policy, then the Timeout manager, then the
Bulkhead.  Each rewrap makes the new layer the OUTER one, so the nesting
outer-to-inner is Bulkhead, Timeout, Retry, Circuit Breaker, operation.
We embed the composition structure: the four layer semantics are
abstract function transformers, and presence of each sub-config is a
boolean (`Map.get` returning a component or not). -/

inductive Layer where
  | bulkhead
  | timeout
  | retry
  | circuitBreaker
deriving DecidableEq, Repr

/-- Which sub-configurations are present for a target (whether each of the
four `Map.get` lookups in `ResilienceManager.execute` finds a component,
which `initializeComponents` makes equivalent to the sub-config being
present in the target's `ResilienceConfig`). -/
structure PolicyPresence where
  circuitBreaker : Bool
  retry : Bool
  timeout : Bool
  bulkhead : Bool
deriving DecidableEq, Repr

/-- Embedding of `ResilienceManager.execute` (resilience.ts lines 207-235):
`wrappedOperation` starts as the operation and is rewrapped by each
present layer, in code order circuit breaker, retry, timeout, bulkhead;
a rewrap puts the new layer outside everything wrapped so far.  The four
layer semantics are abstract transformers `cbT retryT timeoutT bulkheadT`. -/
def managerExecute {α : Type} (cfg : PolicyPresence)
    (cbT retryT timeoutT bulkheadT : α → α) (op : α) : α :=
  let w1 := if cfg.circuitBreaker then cbT op else op
  let w2 := if cfg.retry then retryT w1 else w1
  let w3 := if cfg.timeout then timeoutT w2 else w2
  if cfg.bulkhead then bulkheadT w3 else w3

/-- The semantics of a single layer, given the four transformers. -/
def layerSem {α : Type} (cbT retryT timeoutT bulkheadT : α → α) : Layer → α → α
  | .bulkhead => bulkheadT
  | .timeout => timeoutT
  | .retry => retryT
  | .circuitBreaker => cbT

def Layer.present (cfg : PolicyPresence) : Layer → Bool
  | .bulkhead => cfg.bulkhead
  | .timeout => cfg.timeout
  | .retry => cfg.retry
  | .circuitBreaker => cfg.circuitBreaker

/-- Modelled from the spec's words, for comparison with `managerExecute`:
the fixed outer-to-inner order Bulkhead, Timeout, Retry, Circuit Breaker,
restricted to the layers present in the target's configuration. -/
def configuredLayers (cfg : PolicyPresence) : List Layer :=
  [Layer.bulkhead, Layer.timeout, Layer.retry, Layer.circuitBreaker].filter
    (Layer.present cfg)

/-! ## Circuit breakers

Two circuit breaker classes exist in the repository:
`CircuitBreaker1` embeds the one in
`src/packages/observability/src/resilience.ts` (lines 12-80) and
`CircuitBreaker2` embeds the one in `src/unnamed/part_000` (lines 15-110).
Time is an explicit `now : Int` argument (milliseconds, `Date.now()`), and
the wrapped operation is an `Except ε α`: its outcome if it were invoked.
An `execute` returns the call's outcome together with the post-state; the
outcome `circuitOpen` is the thrown circuit-open error, produced without
looking at the operation. -/

inductive CircuitBreakerState where
  | CLOSED
  | OPEN
  | HALF_OPEN
deriving DecidableEq, Repr

/-- Outcome of one `execute` call on a circuit breaker. -/
inductive CBResult (ε α : Type) where
  | circuitOpen
  | ok (a : α)
  | opFailed (e : ε)
deriving DecidableEq, Repr

structure CircuitBreakerConfig where
  failureThreshold : Nat
  resetTimeout : Int
deriving DecidableEq, Repr

/-- State of the observability package's `CircuitBreaker`
(resilience.ts lines 12-20). -/
structure CircuitBreaker1 where
  config : CircuitBreakerConfig
  state : CircuitBreakerState := .CLOSED
  failureCount : Nat := 0
  successCount : Nat := 0
  lastFailureTime : Option Int := none
  lastSuccessTime : Option Int := none
  nextRetryTime : Option Int := none
deriving DecidableEq, Repr

/-- `onSuccess` (resilience.ts lines 41-49): increment `successCount`,
stamp `lastSuccessTime`; if the breaker was HALF_OPEN, close it and zero
`failureCount`. -/
def CircuitBreaker1.onSuccess (cb : CircuitBreaker1) (now : Int) : CircuitBreaker1 :=
  let cb := { cb with successCount := cb.successCount + 1, lastSuccessTime := some now }
  if cb.state = .HALF_OPEN then { cb with state := .CLOSED, failureCount := 0 } else cb

/-- `onFailure` (resilience.ts lines 51-59): increment `failureCount`,
stamp `lastFailureTime`; when the threshold is reached, open the breaker
and set `nextRetryTime = now + resetTimeout`. -/
def CircuitBreaker1.onFailure (cb : CircuitBreaker1) (now : Int) : CircuitBreaker1 :=
  let cb := { cb with failureCount := cb.failureCount + 1, lastFailureTime := some now }
  if cb.config.failureThreshold ≤ cb.failureCount then
    { cb with state := .OPEN, nextRetryTime := some (now + cb.config.resetTimeout) }
  else cb

/-- The try/catch body of `execute` (resilience.ts lines 31-38). -/
def CircuitBreaker1.run (cb : CircuitBreaker1) (now : Int) (op : Except ε α) :
    CBResult ε α × CircuitBreaker1 :=
  match op with
  | .ok a => (.ok a, cb.onSuccess now)
  | .error e => (.opFailed e, cb.onFailure now)

/-- `execute` (resilience.ts lines 22-39): when OPEN, either transition to
HALF_OPEN (if `Date.now() >= (this.nextRetryTime || 0)`) and run the
operation, or throw the circuit-open error without invoking it. -/
def CircuitBreaker1.execute (cb : CircuitBreaker1) (now : Int) (op : Except ε α) :
    CBResult ε α × CircuitBreaker1 :=
  if cb.state = .OPEN then
    if cb.nextRetryTime.getD 0 ≤ now then
      CircuitBreaker1.run { cb with state := .HALF_OPEN } now op
    else (.circuitOpen, cb)
  else CircuitBreaker1.run cb now op

/-- State of the enterprise patterns `CircuitBreaker`
(src/unnamed/part_000 lines 15-35), with its defaulted options. -/
structure CircuitBreaker2 where
  failureThreshold : Nat := 5
  resetTimeout : Int := 60000
  state : CircuitBreakerState := .CLOSED
  failureCount : Nat := 0
  lastFailureTime : Int := 0
  successCount : Nat := 0
deriving DecidableEq, Repr

/-- `onSuccess` (part_000 lines 57-67): zero `failureCount`; in HALF_OPEN
count consecutive successes and close after the hard-coded 3. -/
def CircuitBreaker2.onSuccess (cb : CircuitBreaker2) : CircuitBreaker2 :=
  let cb := { cb with failureCount := 0 }
  if cb.state = .HALF_OPEN then
    let cb := { cb with successCount := cb.successCount + 1 }
    if 3 ≤ cb.successCount then { cb with state := .CLOSED } else cb
  else cb

/-- `onFailure` (part_000 lines 69-80): increment `failureCount`, stamp
`lastFailureTime`; a HALF_OPEN breaker reopens immediately, a CLOSED one
opens at the threshold. -/
def CircuitBreaker2.onFailure (cb : CircuitBreaker2) (now : Int) : CircuitBreaker2 :=
  let cb := { cb with failureCount := cb.failureCount + 1, lastFailureTime := now }
  if cb.state = .HALF_OPEN then { cb with state := .OPEN }
  else if cb.failureThreshold ≤ cb.failureCount then { cb with state := .OPEN }
  else cb

/-- `shouldAttemptReset` (part_000 lines 82-84). -/
def CircuitBreaker2.shouldAttemptReset (cb : CircuitBreaker2) (now : Int) : Bool :=
  cb.resetTimeout ≤ now - cb.lastFailureTime

/-- The try/catch body of `execute` (part_000 lines 47-54). -/
def CircuitBreaker2.run (cb : CircuitBreaker2) (now : Int) (op : Except ε α) :
    CBResult ε α × CircuitBreaker2 :=
  match op with
  | .ok a => (.ok a, cb.onSuccess)
  | .error e => (.opFailed e, cb.onFailure now)

/-- `execute` (part_000 lines 37-55): when OPEN, either enter HALF_OPEN
with `successCount` reset to 0 (if the reset timeout since the last
failure has elapsed) and run the operation, or throw without invoking
it. -/
def CircuitBreaker2.execute (cb : CircuitBreaker2) (now : Int) (op : Except ε α) :
    CBResult ε α × CircuitBreaker2 :=
  if cb.state = .OPEN then
    if cb.shouldAttemptReset now then
      CircuitBreaker2.run { cb with state := .HALF_OPEN, successCount := 0 } now op
    else (.circuitOpen, cb)
  else CircuitBreaker2.run cb now op

/-! ## Service health (resilience.ts lines 61-70 and 237-265) -/

/-- `CircuitBreaker.getMetrics` (resilience.ts lines 61-70). -/
structure CircuitBreakerMetrics where
  state : CircuitBreakerState
  failureCount : Nat
  successCount : Nat
  lastFailureTime : Option Int
  lastSuccessTime : Option Int
  nextRetryTime : Option Int
deriving DecidableEq, Repr

def CircuitBreaker1.getMetrics (cb : CircuitBreaker1) : CircuitBreakerMetrics :=
  { state := cb.state
    failureCount := cb.failureCount
    successCount := cb.successCount
    lastFailureTime := cb.lastFailureTime
    lastSuccessTime := cb.lastSuccessTime
    nextRetryTime := cb.nextRetryTime }

inductive HealthStatus where
  | healthy
  | degraded
  | unhealthy
deriving DecidableEq, Repr

/-- `ResilienceManager.determineStatus` (resilience.ts lines 251-259);
`metrics` is `circuitBreaker?.getMetrics()`, `none` when the target has no
circuit breaker. -/
def determineStatus : Option CircuitBreakerMetrics → HealthStatus
  | none => .healthy
  | some m =>
    if m.state = .OPEN then .unhealthy
    else if m.state = .HALF_OPEN then .degraded
    else if 0 < m.failureCount then .degraded
    else .healthy

/-- `ResilienceManager.calculateErrorRate` (resilience.ts lines 261-265);
JavaScript number arithmetic is embedded as exact rational arithmetic. -/
def calculateErrorRate : Option CircuitBreakerMetrics → ℚ
  | none => 0
  | some m =>
    if m.failureCount + m.successCount = 0 then 0
    else ((m.failureCount : ℚ) / ((m.failureCount : ℚ) + (m.successCount : ℚ))) * 100

/-- The fields of `ServiceHealth` that `getServiceHealth` computes from the
breaker (`service`, `lastCheck` and the constant `responseTime := 0` are
omitted as they carry no claim-relevant content). -/
structure ServiceHealth where
  status : HealthStatus
  errorRate : ℚ
  circuitBreaker : Option CircuitBreakerMetrics
deriving DecidableEq, Repr

/-- `ResilienceManager.getServiceHealth` (resilience.ts lines 237-249). -/
def getServiceHealth (cb : Option CircuitBreaker1) : ServiceHealth :=
  let metrics := cb.map CircuitBreaker1.getMetrics
  { status := determineStatus metrics
    errorRate := calculateErrorRate metrics
    circuitBreaker := metrics }

/-! ## Bulkhead (resilience.ts lines 134-178)

The observability `Bulkhead` keeps a `running` counter and a queue of
`{resolve, reject}` pairs — note the queue entries do NOT store the
caller's operation.  We model callers by numeric ids; a caller's own
operation settles with an `Except Unit Nat`.  The settled promises are
recorded in `results` in settlement order; `started` records every caller
whose own operation was actually invoked (i.e. passed to
`runOperation`). -/

structure BulkheadConfig where
  maxConcurrent : Nat
  maxQueue : Nat
deriving DecidableEq, Repr

/-- How a caller's promise from `Bulkhead.execute` settles. -/
inductive BhOutcome where
  | value (v : Nat)
  | opError
  | resolvedUndefined
  | bulkheadFull
deriving DecidableEq, Repr

structure BulkheadState where
  running : Nat := 0
  queue : List Nat := []
  active : List Nat := []
  started : List Nat := []
  results : List (Nat × BhOutcome) := []
deriving DecidableEq, Repr

/-- `processQueue` (resilience.ts lines 170-177) together with the cascade
it triggers: a dequeued waiter is handed to
`runOperation(() => Promise.resolve(), next.resolve, next.reject)`, whose
dummy operation resolves at once with `undefined`; its `finally` block
decrements `running` back and calls `processQueue` again, so successive
waiters are drained while `running < maxConcurrent`. -/
def processQueue1 (cfg : BulkheadConfig) :
    Nat → List Nat → List (Nat × BhOutcome) → Nat × List Nat × List (Nat × BhOutcome)
  | running, [], results => (running, [], results)
  | running, c :: rest, results =>
    if running < cfg.maxConcurrent then
      processQueue1 cfg running rest (results ++ [(c, .resolvedUndefined)])
    else (running, c :: rest, results)

/-- `Bulkhead.execute` (resilience.ts lines 140-150): admit (invoking the
caller's own operation via `runOperation`), enqueue the resolve/reject
pair, or reject with the bulkhead-full error. -/
def Bulkhead1.submit (cfg : BulkheadConfig) (s : BulkheadState) (id : Nat) :
    BulkheadState :=
  if s.running < cfg.maxConcurrent then
    { s with running := s.running + 1
             active := s.active ++ [id]
             started := s.started ++ [id] }
  else if s.queue.length < cfg.maxQueue then
    { s with queue := s.queue ++ [id] }
  else
    { s with results := s.results ++ [(id, .bulkheadFull)] }

/-- Settlement of an admitted caller's own operation
(`runOperation`, resilience.ts lines 152-168): deliver the result to the
caller, then in the `finally` block decrement `running` and run
`processQueue`. -/
def Bulkhead1.complete (cfg : BulkheadConfig) (s : BulkheadState) (id : Nat)
    (res : Except Unit Nat) : BulkheadState :=
  if id ∈ s.active then
    let out := match res with
      | .ok v => BhOutcome.value v
      | .error _ => BhOutcome.opError
    let running := s.running - 1
    let results := s.results ++ [(id, out)]
    let pq := processQueue1 cfg running s.queue results
    { s with running := pq.1
             queue := pq.2.1
             results := pq.2.2
             active := s.active.erase id }
  else s

/-! ## Retry policy (src/unnamed/part_000 lines 113-157)

The enterprise `RetryPolicy.execute(operation, shouldRetry)` loops
`attempt = 1 .. maxAttempts`; on failure it rethrows when the attempt was
the last or `shouldRetry(error)` is false, and otherwise sleeps
`delay + jitter` before the next attempt, where
`delay = min(baseDelay * backoffMultiplier^(attempt-1), maxDelay)` and
`jitter = delay * 0.1 * Math.random()`.  JavaScript numbers are embedded
as exact rationals; `Math.random()` is an explicit parameter
`rand : Nat → ℚ` (the draw before retrying attempt `k` is `rand k`).
The operation's outcome on its `k`-th invocation is `op k`.  The result
carries the thrown error as `Option ε` because the unreachable
`throw lastError` after the loop (reached only when `maxAttempts < 1`)
throws the undefined `lastError`.  Alongside the `Except` result we
return the number of attempts made and the list of sleeps performed. -/

structure RetryConfig2 where
  maxAttempts : Nat := 3
  baseDelay : ℚ := 1000
  maxDelay : ℚ := 30000
  backoffMultiplier : ℚ := 2
deriving DecidableEq, Repr

/-- The backoff delay before retrying after a failed `attempt`
(part_000 lines 137-140). -/
def retryDelay (cfg : RetryConfig2) (attempt : Nat) : ℚ :=
  min (cfg.baseDelay * cfg.backoffMultiplier ^ (attempt - 1)) cfg.maxDelay

/-- The jitter added to a delay (part_000 line 143):
`delay * 0.1 * Math.random()` with the random draw `r`. -/
def retryJitter (delay r : ℚ) : ℚ :=
  delay * (1 / 10) * r

/-- The retry loop from iteration `attempt` on (part_000 lines 127-151). -/
def retryGo {ε α : Type} (cfg : RetryConfig2) (shouldRetry : ε → Bool)
    (op : Nat → Except ε α) (rand : Nat → ℚ) (attempt : Nat) :
    Except (Option ε) α × Nat × List ℚ :=
  if attempt ≤ cfg.maxAttempts then
    match op attempt with
    | .ok a => (.ok a, attempt, [])
    | .error e =>
      if attempt = cfg.maxAttempts ∨ ¬ shouldRetry e then (.error (some e), attempt, [])
      else
        let delay := retryDelay cfg attempt
        let rest := retryGo cfg shouldRetry op rand (attempt + 1)
        (rest.1, rest.2.1, (delay + retryJitter delay (rand attempt)) :: rest.2.2)
  else (.error none, attempt - 1, [])
termination_by cfg.maxAttempts + 1 - attempt
decreasing_by
  simp_wf
  omega

/-- `RetryPolicy.execute` (part_000 lines 121-152): the loop starts at
attempt 1. -/
def RetryPolicy2.execute {ε α : Type} (cfg : RetryConfig2) (shouldRetry : ε → Bool)
    (op : Nat → Except ε α) (rand : Nat → ℚ) : Except (Option ε) α × Nat × List ℚ :=
  retryGo cfg shouldRetry op rand 1

/-! ## Retry policy (resilience.ts lines 82-120)

The observability `RetryPolicy.execute(operation)` keeps a mutable
`delay` initialised to `config.initialDelay`; after a failed, retryable,
non-final attempt it sleeps the CURRENT `delay` (no jitter) and then
updates `delay = min(delay * backoffMultiplier, maxDelay)`.  The
`isRetryableError` predicate (matching the error's message/name against
`config.retryableErrors`) is abstracted as a boolean predicate on the
error. -/

structure RetryConfig1 where
  maxAttempts : Nat
  initialDelay : ℚ
  maxDelay : ℚ
  backoffMultiplier : ℚ
deriving DecidableEq, Repr

/-- The retry loop of resilience.ts lines 89-106, from iteration `attempt`
with current backoff `delay`. -/
def retry1Go {ε α : Type} (cfg : RetryConfig1) (isRetryable : ε → Bool)
    (op : Nat → Except ε α) (attempt : Nat) (delay : ℚ) :
    Except (Option ε) α × Nat × List ℚ :=
  if attempt ≤ cfg.maxAttempts then
    match op attempt with
    | .ok a => (.ok a, attempt, [])
    | .error e =>
      if attempt = cfg.maxAttempts then (.error (some e), attempt, [])
      else if ¬ isRetryable e then (.error (some e), attempt, [])
      else
        let rest := retry1Go cfg isRetryable op (attempt + 1)
          (min (delay * cfg.backoffMultiplier) cfg.maxDelay)
        (rest.1, rest.2.1, delay :: rest.2.2)
  else (.error none, attempt - 1, [])
termination_by cfg.maxAttempts + 1 - attempt
decreasing_by
  simp_wf
  omega

/-- `RetryPolicy.execute` (resilience.ts lines 85-109): the loop starts at
attempt 1 with `delay = config.initialDelay`. -/
def RetryPolicy1.execute {ε α : Type} (cfg : RetryConfig1) (isRetryable : ε → Bool)
    (op : Nat → Except ε α) : Except (Option ε) α × Nat × List ℚ :=
  retry1Go cfg isRetryable op 1 cfg.initialDelay

/-- The sequence of backoff delays the resilience.ts policy sleeps:
`retry1Delay cfg (k-1)` is the sleep after the k-th failed attempt
(`delay` starts at `initialDelay` and is clamped only when updated). -/
def retry1Delay (cfg : RetryConfig1) : Nat → ℚ
  | 0 => cfg.initialDelay
  | k + 1 => min (retry1Delay cfg k * cfg.backoffMultiplier) cfg.maxDelay

/-! ## Rate limiter (src/unnamed/part_000 lines 293-331)

`RateLimiter.acquire()` first reassigns `this.requests` to the pruned
list (timestamps `t` with `now - t < windowMs`), then either throws the
rate-limit-exceeded error (carrying
`waitTime = windowMs - (now - requests[0])`) or pushes `now`.  The error
payload is an `Option Int` because `requests[0]` on an empty pruned list
is `undefined` (reachable only with `maxRequests = 0`). -/

structure RateLimiter where
  maxRequests : Nat
  windowMs : Int
  requests : List Int := []
deriving DecidableEq, Repr

inductive AcquireResult where
  | ok
  | rateLimitExceeded (waitTime : Option Int)
deriving DecidableEq, Repr

/-- `RateLimiter.acquire` (part_000 lines 301-315), returning the thrown
or successful outcome together with the post-state. -/
def RateLimiter.acquire (rl : RateLimiter) (now : Int) : AcquireResult × RateLimiter :=
  let pruned := rl.requests.filter (fun t => now - t < rl.windowMs)
  if rl.maxRequests ≤ pruned.length then
    (.rateLimitExceeded (pruned.head?.map fun oldest => rl.windowMs - (now - oldest)),
     { rl with requests := pruned })
  else
    (.ok, { rl with requests := pruned ++ [now] })

/-! ## Cache-aside (src/unnamed/part_000 lines 229-290)

The JavaScript `Map` is embedded as an association list in insertion
order: `get` finds the first (only) entry for a key, `set` replaces the
value of an existing key IN PLACE (preserving its position, as JS `Map`
does) or appends a new entry, `delete` removes the key, and
`keys().next().value` is the head's key.  `CacheAside.get` takes the time
and the outcome `fetch : Except ε α` of `fetchFunction` (if invoked) and
returns the result, the post-state and whether `fetchFunction` was
invoked. -/

structure CacheEntry (α : Type) where
  data : α
  expiry : Int
deriving DecidableEq, Repr

def mapGet {α : Type} (m : List (String × CacheEntry α)) (k : String) :
    Option (CacheEntry α) :=
  (m.find? (fun p => p.1 == k)).map (·.2)

def mapSet {α : Type} (m : List (String × CacheEntry α)) (k : String)
    (v : CacheEntry α) : List (String × CacheEntry α) :=
  if m.any (fun p => p.1 == k) then
    m.map (fun p => if p.1 == k then (k, v) else p)
  else m ++ [(k, v)]

def mapDelete {α : Type} (m : List (String × CacheEntry α)) (k : String) :
    List (String × CacheEntry α) :=
  m.filter (fun p => !(p.1 == k))

structure CacheAside (α : Type) where
  ttlMs : Int := 300000
  maxSize : Nat := 1000
  cache : List (String × CacheEntry α) := []
deriving DecidableEq, Repr

/-- The private `set` (part_000 lines 256-269): when the cache is full,
evict the first inserted key — unless `firstKey` is falsy (absent, or the
empty string, which JavaScript's `if (firstKey)` also skips) — then store
the entry with `expiry = now + ttlMs`. -/
def CacheAside.set {α : Type} (c : CacheAside α) (now : Int) (key : String)
    (data : α) : CacheAside α :=
  let cache :=
    if c.maxSize ≤ c.cache.length then
      match c.cache.head? with
      | some p => if p.1 = "" then c.cache else mapDelete c.cache p.1
      | none => c.cache
    else c.cache
  { c with cache := mapSet cache key ⟨data, now + c.ttlMs⟩ }

/-- `CacheAside.get` (part_000 lines 237-254): return an unexpired cached
entry without fetching; otherwise fetch, store on success (an error from
`fetchFunction` propagates before `set` is reached), and return. -/
def CacheAside.get {ε α : Type} (c : CacheAside α) (now : Int) (key : String)
    (fetch : Except ε α) : Except ε α × CacheAside α × Bool :=
  match mapGet c.cache key with
  | some entry =>
    if now < entry.expiry then (.ok entry.data, c, false)
    else
      match fetch with
      | .ok data => (.ok data, c.set now key data, true)
      | .error e => (.error e, c, true)
  | none =>
    match fetch with
    | .ok data => (.ok data, c.set now key data, true)
    | .error e => (.error e, c, true)

/-- C1: For every target, `ResilienceManager.execute` composes exactly the
layers present in the target's configuration, in the fixed outer-to-inner
nesting order Bulkhead, Timeout, Retry, Circuit Breaker, operation: the
wrapped call equals the right fold of the configured layers' semantics
over the operation (an absent layer is a no-op pass-through, not an
error).  In particular, whenever both a timeout and a retry layer are
configured, the timeout layer sits strictly outside the retry layer, so
the timeout bounds the entire retry sequence rather than each attempt. -/
theorem manager_pipeline_order {α : Type} (cfg : PolicyPresence)
    (cbT retryT timeoutT bulkheadT : α → α) (op : α) :
    managerExecute cfg cbT retryT timeoutT bulkheadT op
      = (configuredLayers cfg).foldr (layerSem cbT retryT timeoutT bulkheadT) op ∧
    (cfg.timeout = true → cfg.retry = true →
      List.Sublist [Layer.timeout, Layer.retry] (configuredLayers cfg)) := by
  obtain ⟨cb, r, t, b⟩ := cfg
  cases cb <;> cases r <;> cases t <;> cases b <;> exact ⟨rfl, by decide⟩

/-- Witness for C1 at a concrete input: the fully configured pipeline on
`Nat` with transformers `+1`, `*2`, `+3`, `*5` applied to `0`. -/
theorem manager_pipeline_order_witness :
    managerExecute ⟨true, true, true, true⟩
        (· + 1) (· * 2) (· + 3) (· * 5) 0
      = (configuredLayers ⟨true, true, true, true⟩).foldr
          (layerSem (· + 1) (· * 2) (· + 3) (· * 5)) 0 ∧
    List.Sublist [Layer.timeout, Layer.retry]
      (configuredLayers ⟨true, true, true, true⟩) := by
  have h := manager_pipeline_order (α := Nat) ⟨true, true, true, true⟩
    (· + 1) (· * 2) (· + 3) (· * 5) 0
  exact ⟨h.1, h.2 rfl rfl⟩

/-- C2 counterexample: on the observability breaker (threshold 2), after a
failure a SUCCESSFUL execute does NOT reset `failureCount` to 0 — it stays
at 1 — and a subsequent failure opens the breaker even though the two
failures were not consecutive. -/
theorem circuit_breaker1_success_reset_cex :
    (let cb0 : CircuitBreaker1 := { config := ⟨2, 100⟩ }
     let cb1 := (cb0.execute 0 (Except.error () : Except Unit Unit)).2
     let cb2 := (cb1.execute 1 (Except.ok () : Except Unit Unit)).2
     let cb3 := (cb2.execute 2 (Except.error () : Except Unit Unit)).2
     cb1.failureCount = 1 ∧ cb2.failureCount = 1 ∧
       cb2.state = CircuitBreakerState.CLOSED ∧
       cb3.state = CircuitBreakerState.OPEN) := by
  decide

/-- C2 (amended): on a CLOSED observability breaker every failed execute
increments `failureCount` and every successful execute increments
`successCount` but leaves `failureCount` unchanged (it is zeroed only on
the HALF_OPEN to CLOSED transition); when `failureCount` reaches
`failureThreshold` — cumulative failures, not necessarily consecutive —
the breaker opens with `nextRetryTime = now + resetTimeout`; while OPEN
and before `nextRetryTime`, every execute returns the circuit-open error
with the state unchanged, for every operation (so the operation is never
invoked).  On the part_000 breaker the original claim holds as stated: a
success zeroes `failureCount`, the threshold opens it stamping
`lastFailureTime = now`, and while OPEN within `resetTimeout` of the last
failure every execute is rejected without invoking the operation. -/
theorem circuit_breaker_closed_behavior {ε α : Type} (e : ε) (a : α) (op : Except ε α)
    (cb cbO : CircuitBreaker1) (cb2 cb2O : CircuitBreaker2) (now : Int)
    (hC : cb.state = .CLOSED)
    (hO : cbO.state = .OPEN) (hBefore : now < cbO.nextRetryTime.getD 0)
    (h2C : cb2.state = .CLOSED)
    (h2O : cb2O.state = .OPEN)
    (h2Before : now - cb2O.lastFailureTime < cb2O.resetTimeout) :
    ((cb.execute now (Except.error e : Except ε α)).2.failureCount
        = cb.failureCount + 1) ∧
    ((cb.execute now (Except.ok a : Except ε α)).2.failureCount = cb.failureCount) ∧
    ((cb.execute now (Except.ok a : Except ε α)).2.successCount
        = cb.successCount + 1) ∧
    (cb.config.failureThreshold ≤ cb.failureCount + 1 →
      (cb.execute now (Except.error e : Except ε α)).2.state = .OPEN ∧
      (cb.execute now (Except.error e : Except ε α)).2.nextRetryTime
        = some (now + cb.config.resetTimeout)) ∧
    (cbO.execute now op = (.circuitOpen, cbO)) ∧
    ((cb2.execute now (Except.error e : Except ε α)).2.failureCount
        = cb2.failureCount + 1) ∧
    ((cb2.execute now (Except.ok a : Except ε α)).2.failureCount = 0) ∧
    (cb2.failureThreshold ≤ cb2.failureCount + 1 →
      (cb2.execute now (Except.error e : Except ε α)).2.state = .OPEN ∧
      (cb2.execute now (Except.error e : Except ε α)).2.lastFailureTime = now) ∧
    (cb2O.execute now op = (.circuitOpen, cb2O)) := by
  refine ⟨?_, ?_, ?_, ?_, ?_, ?_, ?_, ?_, ?_⟩
  · simp [CircuitBreaker1.execute, CircuitBreaker1.run, CircuitBreaker1.onFailure, hC]
    split <;> simp
  · simp [CircuitBreaker1.execute, CircuitBreaker1.run, CircuitBreaker1.onSuccess, hC]
  · simp [CircuitBreaker1.execute, CircuitBreaker1.run, CircuitBreaker1.onSuccess, hC]
  · intro hT
    simp [CircuitBreaker1.execute, CircuitBreaker1.run, CircuitBreaker1.onFailure, hC, hT]
  · simp [CircuitBreaker1.execute, hO, not_le.mpr hBefore]
  · simp [CircuitBreaker2.execute, CircuitBreaker2.run, CircuitBreaker2.onFailure, h2C]
    split <;> simp
  · simp [CircuitBreaker2.execute, CircuitBreaker2.run, CircuitBreaker2.onSuccess, h2C]
  · intro h2T
    simp [CircuitBreaker2.execute, CircuitBreaker2.run, CircuitBreaker2.onFailure, h2C, h2T]
  · simp [CircuitBreaker2.execute, CircuitBreaker2.shouldAttemptReset, h2O,
      not_le.mpr h2Before]

/-- Witness for C2 (amended) at concrete breakers: a fresh observability
breaker with threshold 1 and an OPEN one before its retry time, and the
part_000 counterparts. -/
theorem circuit_breaker_closed_behavior_witness :
    (let cb : CircuitBreaker1 := { config := ⟨1, 100⟩ }
     let cbO : CircuitBreaker1 :=
       { config := ⟨1, 100⟩, state := .OPEN, failureCount := 1, nextRetryTime := some 100 }
     let cb2 : CircuitBreaker2 := { failureThreshold := 1, resetTimeout := 50 }
     let cb2O : CircuitBreaker2 :=
       { failureThreshold := 1, resetTimeout := 50, state := .OPEN,
         failureCount := 1, lastFailureTime := 0 }
     ((cb.execute 0 (Except.error () : Except Unit Unit)).2.failureCount = 1) ∧
     ((cb.execute 0 (Except.ok () : Except Unit Unit)).2.failureCount = 0) ∧
     ((cb.execute 0 (Except.ok () : Except Unit Unit)).2.successCount = 1) ∧
     ((cb.execute 0 (Except.error () : Except Unit Unit)).2.state = .OPEN ∧
       (cb.execute 0 (Except.error () : Except Unit Unit)).2.nextRetryTime = some 100) ∧
     (cbO.execute 0 (Except.ok () : Except Unit Unit) = (.circuitOpen, cbO)) ∧
     ((cb2.execute 0 (Except.error () : Except Unit Unit)).2.failureCount = 1) ∧
     ((cb2.execute 0 (Except.ok () : Except Unit Unit)).2.failureCount = 0) ∧
     ((cb2.execute 0 (Except.error () : Except Unit Unit)).2.state = .OPEN ∧
       (cb2.execute 0 (Except.error () : Except Unit Unit)).2.lastFailureTime = 0) ∧
     (cb2O.execute 0 (Except.ok () : Except Unit Unit) = (.circuitOpen, cb2O))) := by
  have h := circuit_breaker_closed_behavior (ε := Unit) (α := Unit) () ()
    (Except.ok ())
    { config := ⟨1, 100⟩ }
    { config := ⟨1, 100⟩, state := .OPEN, failureCount := 1, nextRetryTime := some 100 }
    { failureThreshold := 1, resetTimeout := 50 }
    { failureThreshold := 1, resetTimeout := 50, state := .OPEN,
      failureCount := 1, lastFailureTime := 0 }
    0 rfl rfl (by decide) rfl rfl (by decide)
  exact ⟨h.1, h.2.1, h.2.2.1, h.2.2.2.1 (by decide), h.2.2.2.2.1, h.2.2.2.2.2.1,
    h.2.2.2.2.2.2.1, h.2.2.2.2.2.2.2.1 (by decide), h.2.2.2.2.2.2.2.2⟩

/-- C3 counterexample, refuting the claim on both breakers.  On the
observability breaker (threshold 1, reset timeout 10), after the reset
timeout a SINGLE success in HALF_OPEN already returns the breaker to
CLOSED — not 3 consecutive successes — and `successCount` is not reset to
0 on entering HALF_OPEN: a breaker with one earlier success reaches
`successCount = 2` after its first half-open success.  On the part_000
breaker, the 3rd consecutive HALF_OPEN success transitions to CLOSED
with `failureCount = 0` but leaves `successCount = 3` (observable via
`getStats`) — NOT "all counters reset". -/
theorem circuit_breaker_half_open_cex :
    (let cb0 : CircuitBreaker1 := { config := ⟨1, 10⟩ }
     let cbA := (cb0.execute 0 (Except.error () : Except Unit Unit)).2
     let cbB := (cbA.execute 10 (Except.ok () : Except Unit Unit)).2
     let cb1 := (cb0.execute 0 (Except.ok () : Except Unit Unit)).2
     let cb2 := (cb1.execute 1 (Except.error () : Except Unit Unit)).2
     let cb3 := (cb2.execute 12 (Except.ok () : Except Unit Unit)).2
     let db0 : CircuitBreaker2 :=
       { failureThreshold := 1, resetTimeout := 10, state := .OPEN,
         failureCount := 1, lastFailureTime := 0 }
     let d1 := (db0.execute 10 (Except.ok () : Except Unit Unit)).2
     let d2 := (d1.execute 11 (Except.ok () : Except Unit Unit)).2
     let d3 := (d2.execute 12 (Except.ok () : Except Unit Unit)).2
     cbA.state = CircuitBreakerState.OPEN ∧
       cbB.state = CircuitBreakerState.CLOSED ∧ cbB.successCount = 1 ∧
       cb2.state = CircuitBreakerState.OPEN ∧
       cb3.successCount = 2 ∧
       d3.state = CircuitBreakerState.CLOSED ∧ d3.failureCount = 0 ∧
       d3.successCount = 3) := by
  decide

/-- C3 (amended): once `resetTimeout` has elapsed the next execute call is
admitted.  On the part_000 breaker the admitted call runs in HALF_OPEN
with `successCount` restarted at 0 (so a first success leaves it
HALF_OPEN with `successCount = 1` and `failureCount = 0`); 3 consecutive
successes return it to CLOSED with `failureCount = 0` but with
`successCount` left at 3 — it is reset only on the next entry to
HALF_OPEN (or by `reset()`), so not ALL counters are reset; a single
failure in HALF_OPEN immediately transitions it back to OPEN, restamping
`lastFailureTime` (which restarts the reset window).  On the
observability breaker, a SINGLE success in HALF_OPEN already returns it
to CLOSED with `failureCount = 0` (`successCount` is cumulative, not
reset on entering HALF_OPEN), and a failure in HALF_OPEN transitions
back to OPEN with `nextRetryTime` re-set to `now + resetTimeout`
whenever `failureCount` had reached the threshold (as it has on any
breaker that tripped open). -/
theorem circuit_breaker_half_open_behavior {ε α : Type} (e : ε) (a : α)
    (cbO : CircuitBreaker1) (cb2O cb2H : CircuitBreaker2) (now n2 n3 : Int)
    (hO : cbO.state = .OPEN) (hAdm : cbO.nextRetryTime.getD 0 ≤ now)
    (hT : cbO.config.failureThreshold ≤ cbO.failureCount + 1)
    (h2O : cb2O.state = .OPEN)
    (h2Adm : cb2O.resetTimeout ≤ now - cb2O.lastFailureTime)
    (h2H : cb2H.state = .HALF_OPEN) :
    (cbO.execute now (Except.ok a : Except ε α)
      = (.ok a, (cbO.execute now (Except.ok a : Except ε α)).2)) ∧
    ((cbO.execute now (Except.ok a : Except ε α)).2.state = .CLOSED) ∧
    ((cbO.execute now (Except.ok a : Except ε α)).2.failureCount = 0) ∧
    ((cbO.execute now (Except.ok a : Except ε α)).2.successCount
        = cbO.successCount + 1) ∧
    ((cbO.execute now (Except.error e : Except ε α)).2.state = .OPEN ∧
      (cbO.execute now (Except.error e : Except ε α)).2.nextRetryTime
        = some (now + cbO.config.resetTimeout)) ∧
    (let s1 := (cb2O.execute now (Except.ok a : Except ε α)).2
     s1.state = .HALF_OPEN ∧ s1.successCount = 1 ∧ s1.failureCount = 0) ∧
    (let s1 := (cb2O.execute now (Except.ok a : Except ε α)).2
     let s3 := ((s1.execute n2 (Except.ok a : Except ε α)).2.execute n3
        (Except.ok a : Except ε α)).2
     s3.state = .CLOSED ∧ s3.failureCount = 0 ∧ s3.successCount = 3) ∧
    ((cb2H.execute now (Except.error e : Except ε α)).2.state = .OPEN ∧
      (cb2H.execute now (Except.error e : Except ε α)).2.lastFailureTime = now) := by
  refine ⟨?_, ?_, ?_, ?_, ?_, ?_, ?_, ?_⟩
  · simp [CircuitBreaker1.execute, CircuitBreaker1.run, hO, hAdm]
  · simp [CircuitBreaker1.execute, CircuitBreaker1.run, CircuitBreaker1.onSuccess,
      hO, hAdm]
  · simp [CircuitBreaker1.execute, CircuitBreaker1.run, CircuitBreaker1.onSuccess,
      hO, hAdm]
  · simp [CircuitBreaker1.execute, CircuitBreaker1.run, CircuitBreaker1.onSuccess,
      hO, hAdm]
  · simp [CircuitBreaker1.execute, CircuitBreaker1.run, CircuitBreaker1.onFailure,
      hO, hAdm, hT]
  · simp [CircuitBreaker2.execute, CircuitBreaker2.run, CircuitBreaker2.onSuccess,
      CircuitBreaker2.shouldAttemptReset, h2O, h2Adm]
  · simp [CircuitBreaker2.execute, CircuitBreaker2.run, CircuitBreaker2.onSuccess,
      CircuitBreaker2.shouldAttemptReset, h2O, h2Adm]
  · simp [CircuitBreaker2.execute, CircuitBreaker2.run, CircuitBreaker2.onFailure, h2H]

/-- Witness for C3 (amended) at concrete breakers: an observability
breaker tripped open with threshold 1, and a part_000 breaker that is
OPEN past its reset timeout, plus a HALF_OPEN part_000 breaker. -/
theorem circuit_breaker_half_open_behavior_witness :
    (let cbO : CircuitBreaker1 :=
       { config := ⟨1, 10⟩, state := .OPEN, failureCount := 1,
         lastFailureTime := some 0, nextRetryTime := some 10 }
     let cb2O : CircuitBreaker2 :=
       { failureThreshold := 1, resetTimeout := 10, state := .OPEN,
         failureCount := 1, lastFailureTime := 0 }
     let cb2H : CircuitBreaker2 :=
       { failureThreshold := 1, resetTimeout := 10, state := .HALF_OPEN,
         failureCount := 0, lastFailureTime := 0, successCount := 1 }
     ((cbO.execute 10 (Except.ok () : Except Unit Unit)).2.state = .CLOSED) ∧
     ((cbO.execute 10 (Except.ok () : Except Unit Unit)).2.failureCount = 0) ∧
     ((cbO.execute 10 (Except.error () : Except Unit Unit)).2.state = .OPEN) ∧
     ((cb2O.execute 10 (Except.ok () : Except Unit Unit)).2.state = .HALF_OPEN) ∧
     (let s1 := (cb2O.execute 10 (Except.ok () : Except Unit Unit)).2
      let s3 := ((s1.execute 11 (Except.ok () : Except Unit Unit)).2.execute 12
         (Except.ok () : Except Unit Unit)).2
      s3.state = .CLOSED ∧ s3.failureCount = 0) ∧
     ((cb2H.execute 10 (Except.error () : Except Unit Unit)).2.state = .OPEN)) := by
  have h := circuit_breaker_half_open_behavior (ε := Unit) (α := Unit) () ()
    { config := ⟨1, 10⟩, state := .OPEN, failureCount := 1,
      lastFailureTime := some 0, nextRetryTime := some 10 }
    { failureThreshold := 1, resetTimeout := 10, state := .OPEN,
      failureCount := 1, lastFailureTime := 0 }
    { failureThreshold := 1, resetTimeout := 10, state := .HALF_OPEN,
      failureCount := 0, lastFailureTime := 0, successCount := 1 }
    10 11 12 rfl (by decide) (by decide) rfl (by decide) rfl
  exact ⟨h.2.1, h.2.2.1, h.2.2.2.2.1.1, h.2.2.2.2.2.1.1,
    ⟨h.2.2.2.2.2.2.1.1, h.2.2.2.2.2.2.1.2.1⟩, h.2.2.2.2.2.2.2.1⟩

/-- C4 counterexample: for a breaker with `failureCount = 1` and
`successCount = 1`, `getServiceHealth` reports `errorRate = 50` — the
code multiplies the ratio by 100 — whereas the claimed
`failureCount / (failureCount + successCount)` is `1/2`. -/
theorem get_service_health_error_rate_cex :
    (let cb : CircuitBreaker1 := { config := ⟨5, 100⟩, failureCount := 1, successCount := 1 }
     (getServiceHealth (some cb)).errorRate = 50) ∧ (50 : ℚ) ≠ 1 / 2 := by
  constructor
  · norm_num [getServiceHealth, calculateErrorRate, CircuitBreaker1.getMetrics]
  · norm_num

/-- C4 (amended): for every target with a circuit breaker, `getServiceHealth`
maps the breaker's state to a status as: OPEN gives unhealthy, HALF_OPEN
gives degraded, CLOSED with `failureCount > 0` gives degraded, otherwise
healthy; and the reported `errorRate` equals
`(failureCount / (failureCount + successCount)) * 100` — a percentage,
not the bare ratio — and equals 0 when both counters are zero. -/
theorem get_service_health_status (cb : CircuitBreaker1) :
    (cb.state = .OPEN → (getServiceHealth (some cb)).status = .unhealthy) ∧
    (cb.state = .HALF_OPEN → (getServiceHealth (some cb)).status = .degraded) ∧
    (cb.state = .CLOSED → 0 < cb.failureCount →
      (getServiceHealth (some cb)).status = .degraded) ∧
    (cb.state = .CLOSED → cb.failureCount = 0 →
      (getServiceHealth (some cb)).status = .healthy) ∧
    (cb.failureCount + cb.successCount ≠ 0 →
      (getServiceHealth (some cb)).errorRate
        = (cb.failureCount : ℚ) / ((cb.failureCount : ℚ) + (cb.successCount : ℚ))
            * 100) ∧
    (cb.failureCount = 0 → cb.successCount = 0 →
      (getServiceHealth (some cb)).errorRate = 0) := by
  refine ⟨?_, ?_, ?_, ?_, ?_, ?_⟩
  · intro h
    simp [getServiceHealth, determineStatus, CircuitBreaker1.getMetrics, h]
  · intro h
    simp [getServiceHealth, determineStatus, CircuitBreaker1.getMetrics, h]
  · intro h hf
    simp [getServiceHealth, determineStatus, CircuitBreaker1.getMetrics, h, hf]
  · intro h hf
    simp [getServiceHealth, determineStatus, CircuitBreaker1.getMetrics, h, hf]
  · intro h
    simp [getServiceHealth, calculateErrorRate, CircuitBreaker1.getMetrics, h]
  · intro hf hs
    simp [getServiceHealth, calculateErrorRate, CircuitBreaker1.getMetrics, hf, hs]

/-- Witness for C4 (amended): an OPEN breaker with one failure and one
success has status unhealthy and error rate 50; a fresh CLOSED breaker is
healthy with error rate 0. -/
theorem get_service_health_status_witness :
    (let cbo : CircuitBreaker1 :=
       { config := ⟨5, 100⟩, state := .OPEN, failureCount := 1, successCount := 1 }
     (getServiceHealth (some cbo)).status = .unhealthy ∧
       (getServiceHealth (some cbo)).errorRate = (1 : ℚ) / (1 + 1) * 100) ∧
    (let cbc : CircuitBreaker1 := { config := ⟨5, 100⟩ }
     (getServiceHealth (some cbc)).status = .healthy ∧
       (getServiceHealth (some cbc)).errorRate = 0) := by
  have h1 := get_service_health_status
    { config := ⟨5, 100⟩, state := .OPEN, failureCount := 1, successCount := 1 }
  have h2 := get_service_health_status { config := ⟨5, 100⟩ }
  exact ⟨⟨h1.1 rfl, by simpa using h1.2.2.2.2.1 (by decide)⟩,
    h2.2.2.2.1 rfl rfl, h2.2.2.2.2.2 rfl rfl⟩

/-- C5: the spec's Bulkhead scenario (`maxConcurrent = 2`, `maxQueue = 1`,
4 concurrent submissions) on the observability `Bulkhead`.  Callers 0 and
1 are admitted immediately (their operations start, `running = 2`),
caller 2 is enqueued, caller 3 is rejected with the bulkhead-full error.
The divergence from the claim: when caller 0's operation completes (with
value 42), the queued caller 2 is resolved with `undefined` via the dummy
`() => Promise.resolve()` — its original operation is NEVER invoked and
its result is never delivered (spec section 9 flags this as a latent
correctness bug in the source). -/
theorem bulkhead_queued_waiter_dummy_resolution :
    (let cfg : BulkheadConfig := ⟨2, 1⟩
     let s1 := Bulkhead1.submit cfg {} 0
     let s2 := Bulkhead1.submit cfg s1 1
     let s3 := Bulkhead1.submit cfg s2 2
     let s4 := Bulkhead1.submit cfg s3 3
     let s5 := Bulkhead1.complete cfg s4 0 (Except.ok 42)
     s2.running = 2 ∧ s2.started = [0, 1] ∧
       s3.queue = [2] ∧ s3.running = 2 ∧
       s4.results = [(3, BhOutcome.bulkheadFull)] ∧
       s5.results = [(3, BhOutcome.bulkheadFull), (0, BhOutcome.value 42),
         (2, BhOutcome.resolvedUndefined)] ∧
       s5.queue = [] ∧ s5.started = [0, 1] ∧ 2 ∉ s5.started) := by
  decide

/-- C6 counterexample: the observability retry policy does not clamp the
FIRST backoff sleep to `maxDelay`: with `maxAttempts = 2`,
`initialDelay = 5000`, `maxDelay = 1000`, `backoffMultiplier = 2` and an
always-failing retryable operation, the policy sleeps 5000ms before the
retry, while the claimed
`delay = min(baseDelay * backoffMultiplier^(attempt-1), maxDelay)` is
1000ms, and even with the maximal 10% jitter the claimed sleep is at most
1100ms. -/
theorem retry1_first_delay_unclamped_cex :
    (RetryPolicy1.execute ⟨2, 5000, 1000, 2⟩ (fun _ => true)
      (fun _ => (Except.error () : Except Unit Unit))).2.2 = [5000] ∧
    min ((5000 : ℚ) * 2 ^ (1 - 1)) 1000 = 1000 ∧
    ¬ ((5000 : ℚ) ≤ 1000 + 1000 * (1 / 10)) := by
  refine ⟨?_, by norm_num, by norm_num⟩
  simp only [RetryPolicy1.execute]
  rw [retry1Go]
  norm_num
  rw [retry1Go]
  norm_num

/-- C6 (amended): for every retry execution, a successful attempt returns
its result immediately; on a failed attempt, if it was the last of
`maxAttempts` attempts or the retryability predicate rejects the error,
the failure is propagated unmodified (a non-retryable error is propagated
after exactly one attempt, never retried).  Otherwise the policy sleeps
and retries: the part_000 policy sleeps
`delay = min(baseDelay * backoffMultiplier^(attempt-1), maxDelay)` plus a
random jitter of at most 10% of `delay`, exactly as claimed; the
observability policy sleeps with no jitter following the recurrence
`d 0 = initialDelay`, `d (k+1) = min(d k * backoffMultiplier, maxDelay)`,
which equals the claimed `min(initialDelay * backoffMultiplier^k,
maxDelay)` whenever `0 ≤ initialDelay ≤ maxDelay` and
`backoffMultiplier ≥ 1`, but leaves the first sleep unclamped
otherwise. -/
theorem retry_policy_behavior {ε α : Type} (cfg2 : RetryConfig2) (cfg1 : RetryConfig1)
    (sr : ε → Bool) (op : Nat → Except ε α) (rand : Nat → ℚ)
    (attempt : Nat) (e : ε) (a : α) (d r : ℚ) :
    (attempt ≤ cfg2.maxAttempts → op attempt = .ok a →
      retryGo cfg2 sr op rand attempt = (.ok a, attempt, [])) ∧
    (1 ≤ cfg2.maxAttempts → op 1 = .error e → sr e = false →
      RetryPolicy2.execute cfg2 sr op rand = (.error (some e), 1, [])) ∧
    (1 ≤ cfg2.maxAttempts → op cfg2.maxAttempts = .error e →
      retryGo cfg2 sr op rand cfg2.maxAttempts
        = (.error (some e), cfg2.maxAttempts, [])) ∧
    (attempt < cfg2.maxAttempts → op attempt = .error e → sr e = true →
      retryGo cfg2 sr op rand attempt
        = ((retryGo cfg2 sr op rand (attempt + 1)).1,
           (retryGo cfg2 sr op rand (attempt + 1)).2.1,
           (retryDelay cfg2 attempt
              + retryJitter (retryDelay cfg2 attempt) (rand attempt))
             :: (retryGo cfg2 sr op rand (attempt + 1)).2.2)) ∧
    (0 ≤ d → 0 ≤ r → r ≤ 1 → retryJitter d r ≤ d * (1 / 10)) ∧
    (attempt ≤ cfg1.maxAttempts → op attempt = .ok a →
      retry1Go cfg1 sr op attempt d = (.ok a, attempt, [])) ∧
    (1 ≤ cfg1.maxAttempts → op 1 = .error e → sr e = false →
      RetryPolicy1.execute cfg1 sr op = (.error (some e), 1, [])) ∧
    (attempt < cfg1.maxAttempts → op attempt = .error e → sr e = true →
      retry1Go cfg1 sr op attempt d
        = ((retry1Go cfg1 sr op (attempt + 1)
              (min (d * cfg1.backoffMultiplier) cfg1.maxDelay)).1,
           (retry1Go cfg1 sr op (attempt + 1)
              (min (d * cfg1.backoffMultiplier) cfg1.maxDelay)).2.1,
           d :: (retry1Go cfg1 sr op (attempt + 1)
              (min (d * cfg1.backoffMultiplier) cfg1.maxDelay)).2.2)) ∧
    (0 ≤ cfg1.initialDelay → cfg1.initialDelay ≤ cfg1.maxDelay →
      1 ≤ cfg1.backoffMultiplier → ∀ k : Nat,
      retry1Delay cfg1 k
        = min (cfg1.initialDelay * cfg1.backoffMultiplier ^ k) cfg1.maxDelay) := by
  refine ⟨?_, ?_, ?_, ?_, ?_, ?_, ?_, ?_, ?_⟩
  · intro h hop
    rw [retryGo]
    simp [h, hop]
  · intro h hop hsr
    simp only [RetryPolicy2.execute]
    rw [retryGo]
    rcases Nat.eq_or_lt_of_le h with h1 | h1
    · simp [← h1, hop]
    · simp [h, hop, hsr, Nat.ne_of_lt h1]
  · intro h hop
    rw [retryGo]
    simp [h, hop]
  · intro h hop hsr
    nth_rewrite 1 [retryGo]
    simp [Nat.le_of_lt h, hop, hsr, Nat.ne_of_lt h]
  · intro hd hr hr1
    calc retryJitter d r = d * (1 / 10) * r := rfl
    _ ≤ d * (1 / 10) * 1 := by
        apply mul_le_mul_of_nonneg_left hr1
        positivity
    _ = d * (1 / 10) := by ring
  · intro h hop
    rw [retry1Go]
    simp [h, hop]
  · intro h hop hsr
    simp only [RetryPolicy1.execute]
    rw [retry1Go]
    rcases Nat.eq_or_lt_of_le h with h1 | h1
    · simp [← h1, hop]
    · simp [h, hop, hsr, Nat.ne_of_lt h1]
  · intro h hop hsr
    nth_rewrite 1 [retry1Go]
    simp [Nat.le_of_lt h, hop, hsr, Nat.ne_of_lt h]
  · intro h0 hle hm k
    induction k with
    | zero =>
      simp [retry1Delay, min_eq_left hle]
    | succ k ih =>
      rw [retry1Delay, ih, pow_succ]
      rcases le_or_lt (cfg1.initialDelay * cfg1.backoffMultiplier ^ k) cfg1.maxDelay
        with hc | hc
      · rw [min_eq_left hc, mul_assoc]
      · have hd0 : (0 : ℚ) ≤ cfg1.maxDelay := le_trans h0 hle
        have h1 : cfg1.maxDelay ≤ cfg1.maxDelay * cfg1.backoffMultiplier :=
          le_mul_of_one_le_right hd0 hm
        have h2 : (0 : ℚ) ≤ cfg1.initialDelay * cfg1.backoffMultiplier ^ k := by
          have : (0 : ℚ) ≤ cfg1.backoffMultiplier := le_trans zero_le_one hm
          positivity
        have h3 : cfg1.maxDelay
            ≤ cfg1.initialDelay * cfg1.backoffMultiplier ^ k * cfg1.backoffMultiplier :=
          le_trans hc.le (le_mul_of_one_le_right h2 hm)
        rw [min_eq_right hc.le, min_eq_right h1, ← mul_assoc, min_eq_right h3]

/-- Witness for C6 (amended) at the spec's scenario: `maxAttempts = 3`,
base delay 100, multiplier 2, an operation succeeding on its 3rd attempt
(with value 7), random draw 1/2, plus an always-failing operation and an
always-false retryability predicate for the propagation clauses. -/
theorem retry_policy_behavior_witness :
    (retryGo ⟨3, 100, 30000, 2⟩ (fun _ => true)
       (fun k => if k = 3 then Except.ok 7 else Except.error ())
       (fun _ => 1 / 2) 3 = (.ok 7, 3, [])) ∧
    (RetryPolicy2.execute ⟨3, 100, 30000, 2⟩ (fun _ => false)
       (fun _ => (Except.error () : Except Unit Nat)) (fun _ => 1 / 2)
       = (.error (some ()), 1, [])) ∧
    (retryGo ⟨3, 100, 30000, 2⟩ (fun _ => true)
       (fun _ => (Except.error () : Except Unit Nat)) (fun _ => 1 / 2) 3
       = (.error (some ()), 3, [])) ∧
    (retryGo ⟨3, 100, 30000, 2⟩ (fun _ => true)
       (fun k => if k = 3 then Except.ok 7 else Except.error ())
       (fun _ => 1 / 2) 1
       = ((retryGo ⟨3, 100, 30000, 2⟩ (fun _ => true)
             (fun k => if k = 3 then Except.ok 7 else Except.error ())
             (fun _ => 1 / 2) 2).1,
          (retryGo ⟨3, 100, 30000, 2⟩ (fun _ => true)
             (fun k => if k = 3 then Except.ok 7 else Except.error ())
             (fun _ => 1 / 2) 2).2.1,
          (retryDelay ⟨3, 100, 30000, 2⟩ 1
             + retryJitter (retryDelay ⟨3, 100, 30000, 2⟩ 1) (1 / 2))
            :: (retryGo ⟨3, 100, 30000, 2⟩ (fun _ => true)
                 (fun k => if k = 3 then Except.ok 7 else Except.error ())
                 (fun _ => 1 / 2) 2).2.2)) ∧
    (retryJitter 100 (1 / 2) ≤ 100 * (1 / 10)) ∧
    (retry1Go ⟨3, 100, 30000, 2⟩ (fun _ => true)
       (fun k => if k = 3 then Except.ok 7 else Except.error ()) 3 100
       = (.ok 7, 3, [])) ∧
    (RetryPolicy1.execute ⟨3, 100, 30000, 2⟩ (fun _ => false)
       (fun _ => (Except.error () : Except Unit Nat)) = (.error (some ()), 1, [])) ∧
    (retry1Go ⟨3, 100, 30000, 2⟩ (fun _ => true)
       (fun k => if k = 3 then Except.ok 7 else Except.error ()) 1 100
       = ((retry1Go ⟨3, 100, 30000, 2⟩ (fun _ => true)
             (fun k => if k = 3 then Except.ok 7 else Except.error ()) 2
             (min (100 * 2) 30000)).1,
          (retry1Go ⟨3, 100, 30000, 2⟩ (fun _ => true)
             (fun k => if k = 3 then Except.ok 7 else Except.error ()) 2
             (min (100 * 2) 30000)).2.1,
          100 :: (retry1Go ⟨3, 100, 30000, 2⟩ (fun _ => true)
             (fun k => if k = 3 then Except.ok 7 else Except.error ()) 2
             (min (100 * 2) 30000)).2.2)) ∧
    (retry1Delay ⟨3, 100, 30000, 2⟩ 1 = min (100 * 2 ^ 1) 30000) := by
  have h1 := retry_policy_behavior (ε := Unit) (α := Nat)
    ⟨3, 100, 30000, 2⟩ ⟨3, 100, 30000, 2⟩ (fun _ => true)
    (fun k => if k = 3 then Except.ok 7 else Except.error ())
    (fun _ => 1 / 2) 3 () 7 100 (1 / 2)
  have h2 := retry_policy_behavior (ε := Unit) (α := Nat)
    ⟨3, 100, 30000, 2⟩ ⟨3, 100, 30000, 2⟩ (fun _ => true)
    (fun k => if k = 3 then Except.ok 7 else Except.error ())
    (fun _ => 1 / 2) 1 () 7 100 (1 / 2)
  have h3 := retry_policy_behavior (ε := Unit) (α := Nat)
    ⟨3, 100, 30000, 2⟩ ⟨3, 100, 30000, 2⟩ (fun _ => false)
    (fun _ => (Except.error () : Except Unit Nat)) (fun _ => 1 / 2) 1 () 7 100 (1 / 2)
  have h4 := retry_policy_behavior (ε := Unit) (α := Nat)
    ⟨3, 100, 30000, 2⟩ ⟨3, 100, 30000, 2⟩ (fun _ => true)
    (fun _ => (Except.error () : Except Unit Nat)) (fun _ => 1 / 2) 3 () 7 100 (1 / 2)
  exact ⟨h1.1 (by decide) rfl,
    h3.2.1 (by decide) rfl rfl,
    h4.2.2.1 (by decide) rfl,
    h2.2.2.2.1 (by decide) rfl rfl,
    h1.2.2.2.2.1 (by norm_num) (by norm_num) (by norm_num),
    h1.2.2.2.2.2.1 (by decide) rfl,
    h3.2.2.2.2.2.2.1 (by decide) rfl rfl,
    h2.2.2.2.2.2.2.2.1 (by decide) rfl rfl,
    h1.2.2.2.2.2.2.2.2 (by norm_num) (by norm_num) (by norm_num) 1⟩

/-- C7: every `acquire` prunes timestamps older than `now - windowMs`
first; if the remaining count is strictly below `maxRequests`, `now` is
recorded and the call succeeds; otherwise it fails with the
rate-limit-exceeded error carrying
`waitTime = windowMs - (now - oldestTimestamp)`, which is at most
`windowMs` whenever no recorded timestamp lies in the future; and after
the window has fully passed, `acquire` succeeds again. -/
theorem rate_limiter_acquire_behavior (rl : RateLimiter) (now nowR oldest : Int)
    (rest : List Int) (hmax : 1 ≤ rl.maxRequests) :
    ((rl.requests.filter (fun t => now - t < rl.windowMs)).length < rl.maxRequests →
      rl.acquire now
        = (.ok, { rl with requests :=
            rl.requests.filter (fun t => now - t < rl.windowMs) ++ [now] })) ∧
    (rl.requests.filter (fun t => now - t < rl.windowMs) = oldest :: rest →
      rl.maxRequests ≤ (oldest :: rest).length →
      ((rl.acquire now).1 = .rateLimitExceeded (some (rl.windowMs - (now - oldest))) ∧
        ((∀ t ∈ rl.requests, t ≤ now) →
          rl.windowMs - (now - oldest) ≤ rl.windowMs))) ∧
    ((∀ t ∈ rl.requests, rl.windowMs ≤ nowR - t) → (rl.acquire nowR).1 = .ok) := by
  refine ⟨?_, ?_, ?_⟩
  · intro h
    simp only [RateLimiter.acquire]
    rw [if_neg (Nat.not_le.mpr h)]
  · intro hf hlen
    constructor
    · simp only [RateLimiter.acquire, hf]
      rw [if_pos hlen]
      simp
    · intro hle
      have hm : oldest ∈ rl.requests :=
        List.mem_of_mem_filter (hf ▸ List.mem_cons_self oldest rest)
      have := hle oldest hm
      omega
  · intro h
    have hnil : rl.requests.filter (fun t => nowR - t < rl.windowMs) = [] := by
      rw [List.filter_eq_nil_iff]
      intro t ht
      simpa using not_lt.mpr (h t ht)
    simp only [RateLimiter.acquire, hnil]
    rw [if_neg (by simp; omega)]

/-- Witness for C7 at the spec's scenario (`maxRequests = 5`,
`windowMs = 1000`): with 4 in-window timestamps the 5th call at 500
succeeds and records 500; with 5 timestamps the call at 500 fails with
wait time 500 ≤ 1000; at time 2000 (window fully passed) it succeeds. -/
theorem rate_limiter_acquire_behavior_witness :
    (RateLimiter.acquire ⟨5, 1000, [0, 1, 2, 3]⟩ 500
      = (.ok, ⟨5, 1000, [0, 1, 2, 3, 500]⟩)) ∧
    ((RateLimiter.acquire ⟨5, 1000, [0, 1, 2, 3, 4]⟩ 500).1
        = .rateLimitExceeded (some (1000 - (500 - 0))) ∧
      (1000 : Int) - (500 - 0) ≤ 1000) ∧
    ((RateLimiter.acquire ⟨5, 1000, [0, 1, 2, 3, 4]⟩ 2000).1 = .ok) := by
  have h1 := rate_limiter_acquire_behavior ⟨5, 1000, [0, 1, 2, 3]⟩ 500 2000 0
    [1, 2, 3] (by decide)
  have h2 := rate_limiter_acquire_behavior ⟨5, 1000, [0, 1, 2, 3, 4]⟩ 500 2000 0
    [1, 2, 3, 4] (by decide)
  have hfail := h2.2.1 (by decide) (by decide)
  refine ⟨by simpa using h1.1 (by decide), ⟨hfail.1, hfail.2 (by decide)⟩,
    h2.2.2 (by decide)⟩

/-- C9: whenever `RateLimiter.acquire` fails with the rate-limit-exceeded
error, no new timestamp is recorded: the post-state's request log is
exactly the pruned log (old timestamps removed, nothing added), and on
any state whose log has at most `maxRequests` entries (an invariant of
every reachable state) a rejected call leaves the limiter completely
unchanged — so consecutive rejected calls never consume capacity nor move
the time at which capacity frees. -/
theorem rate_limiter_reject_preserves_state (rl : RateLimiter) (now : Int)
    (w : Option Int)
    (hrej : (rl.acquire now).1 = .rateLimitExceeded w) :
    (rl.acquire now).2.requests
      = rl.requests.filter (fun t => now - t < rl.windowMs) ∧
    (rl.requests.length ≤ rl.maxRequests → (rl.acquire now).2 = rl) := by
  by_cases hc :
      rl.maxRequests ≤ (rl.requests.filter (fun t => now - t < rl.windowMs)).length
  · constructor
    · simp [RateLimiter.acquire, hc]
    · intro hlen
      have h1 : (rl.requests.filter (fun t => now - t < rl.windowMs)).length
          = rl.requests.length :=
        le_antisymm (List.length_filter_le _ _) (le_trans hlen hc)
      have h2 := List.filter_eq_self.mpr (List.filter_length_eq_length.mp h1)
      have hc2 : rl.maxRequests ≤ rl.requests.length := h1 ▸ hc
      simp [RateLimiter.acquire, hc, h2, hc2]
  · exfalso
    simp [RateLimiter.acquire, hc] at hrej

/-- Witness for C9: the limiter `maxRequests = 5`, `windowMs = 1000` with
5 in-window timestamps, rejected at time 500, is left exactly as it
was. -/
theorem rate_limiter_reject_preserves_state_witness :
    (RateLimiter.acquire ⟨5, 1000, [0, 1, 2, 3, 4]⟩ 500).2.requests
      = [0, 1, 2, 3, 4] ∧
    (RateLimiter.acquire ⟨5, 1000, [0, 1, 2, 3, 4]⟩ 500).2
      = ⟨5, 1000, [0, 1, 2, 3, 4]⟩ := by
  have h := rate_limiter_reject_preserves_state ⟨5, 1000, [0, 1, 2, 3, 4]⟩ 500
    (some 500) (by decide)
  exact ⟨by simpa using h.1, h.2 (by decide)⟩

/-! Association-list lemmas for the JavaScript `Map` embedding, shared by
the cache-aside theorems. -/

theorem find_map_self {α : Type} (k : String) (v : CacheEntry α) :
    ∀ m : List (String × CacheEntry α), (m.any (fun p => p.1 == k)) = true →
      List.find? (fun p => p.1 == k)
        (m.map (fun p => if p.1 == k then (k, v) else p)) = some (k, v)
  | [], h => by simp at h
  | p :: rest, h => by
    rw [List.map_cons]
    by_cases hp : p.1 = k
    · rw [if_pos (by simp [hp])]
      exact List.find?_cons_of_pos _ (by simp)
    · have h1 : (p.1 == k) = false := by simp [hp]
      rw [if_neg (by simp [h1])]
      rw [List.find?_cons_of_neg _ (by simp [h1])]
      apply find_map_self k v rest
      rw [List.any_cons, h1, Bool.false_or] at h
      exact h

theorem find_append_self {α : Type} (k : String) (v : CacheEntry α) :
    ∀ m : List (String × CacheEntry α), (m.any (fun p => p.1 == k)) = false →
      List.find? (fun p => p.1 == k) (m ++ [(k, v)]) = some (k, v)
  | [], _ => by
    rw [List.nil_append]
    exact List.find?_cons_of_pos _ (by simp)
  | p :: rest, h => by
    rw [List.any_cons, Bool.or_eq_false_iff] at h
    rw [List.cons_append, List.find?_cons_of_neg _ (by simp [h.1])]
    exact find_append_self k v rest h.2

theorem mapGet_mapSet_self {α : Type} (m : List (String × CacheEntry α)) (k : String)
    (v : CacheEntry α) : mapGet (mapSet m k v) k = some v := by
  by_cases hb : (m.any (fun p => p.1 == k)) = true
  · simp only [mapGet, mapSet, if_pos hb, find_map_self k v m hb]
    rfl
  · rw [Bool.not_eq_true] at hb
    simp only [mapGet, mapSet, hb, Bool.false_eq_true, if_false,
      find_append_self k v m hb]
    rfl

theorem find_map_ne {α : Type} (k k2 : String) (v : CacheEntry α) (hne : k2 ≠ k) :
    ∀ m : List (String × CacheEntry α),
      List.find? (fun p => p.1 == k2)
        (m.map (fun p => if p.1 == k then (k, v) else p))
        = List.find? (fun p => p.1 == k2) m
  | [] => by simp
  | p :: rest => by
    rw [List.map_cons]
    by_cases hp : p.1 = k
    · have h1 : ((k, v).1 == k2) = false := by simp [Ne.symm hne]
      have h2 : (p.1 == k2) = false := by simp [hp, Ne.symm hne]
      rw [if_pos (by simp [hp])]
      rw [List.find?_cons_of_neg _ (by simp [h1]),
        List.find?_cons_of_neg _ (by simp [h2])]
      exact find_map_ne k k2 v hne rest
    · have h1 : (p.1 == k) = false := by simp [hp]
      rw [if_neg (by simp [h1])]
      by_cases hp2 : p.1 = k2
      · rw [List.find?_cons_of_pos _ (by simp [hp2]),
          List.find?_cons_of_pos _ (by simp [hp2])]
      · rw [List.find?_cons_of_neg _ (by simp [hp2]),
          List.find?_cons_of_neg _ (by simp [hp2])]
        exact find_map_ne k k2 v hne rest

theorem find_append_ne {α : Type} (k k2 : String) (v : CacheEntry α) (hne : k2 ≠ k) :
    ∀ m : List (String × CacheEntry α),
      List.find? (fun p => p.1 == k2) (m ++ [(k, v)])
        = List.find? (fun p => p.1 == k2) m
  | [] => by
    rw [List.nil_append, List.find?_cons_of_neg _ (by simp [Ne.symm hne])]
  | p :: rest => by
    rw [List.cons_append]
    by_cases hp2 : p.1 = k2
    · rw [List.find?_cons_of_pos _ (by simp [hp2]),
        List.find?_cons_of_pos _ (by simp [hp2])]
    · rw [List.find?_cons_of_neg _ (by simp [hp2]),
        List.find?_cons_of_neg _ (by simp [hp2])]
      exact find_append_ne k k2 v hne rest

theorem mapGet_mapSet_ne {α : Type} (m : List (String × CacheEntry α))
    (k k2 : String) (v : CacheEntry α) (h : k2 ≠ k) :
    mapGet (mapSet m k v) k2 = mapGet m k2 := by
  by_cases hb : (m.any (fun p => p.1 == k)) = true
  · simp only [mapGet, mapSet, if_pos hb, find_map_ne k k2 v h m]
  · rw [Bool.not_eq_true] at hb
    simp only [mapGet, mapSet, hb, Bool.false_eq_true, if_false,
      find_append_ne k k2 v h m]

theorem mapGet_mapDelete_self {α : Type} (m : List (String × CacheEntry α))
    (k : String) : mapGet (mapDelete m k) k = none := by
  have hnone : List.find? (fun p => p.1 == k) (mapDelete m k) = none := by
    rw [List.find?_eq_none]
    intro p hp
    rw [mapDelete, List.mem_filter] at hp
    simpa using hp.2
  simp [mapGet, hnone]

/-- C8 counterexample: the eviction is NOT unconditional.  With
`maxSize = 1` and the single (insertion-order-oldest) entry keyed by the
empty string — a legal Map key — a `get` that misses and stores a new
key evicts nothing: JavaScript's `if (firstKey)` treats the falsy `""`
as absent and skips the delete, so the old entry survives and the cache
grows to 2 > `maxSize`, refuting "the insertion-order-oldest entry is
evicted before inserting". -/
theorem cache_aside_eviction_skip_cex :
    (let c : CacheAside Nat := ⟨100, 1, [("", ⟨1, 200⟩)]⟩
     let r := c.get 0 "k" (Except.ok 7 : Except Unit Nat)
     r.2.1.cache = [("", ⟨1, 200⟩), ("k", ⟨7, 100⟩)] ∧
       mapGet r.2.1.cache "" = some ⟨1, 200⟩ ∧
       r.2.1.cache.length = 2) := by
  decide

/-- C8 (amended): for every cache-aside `get(key, fetchFn)`: a hit on an
unexpired entry returns the cached value without invoking `fetchFn` and
leaves the cache unchanged; a miss or an expired entry causes `fetchFn`
to be invoked, its result stored with `expiry = now + ttlMs` and
returned; when the cache already holds `maxSize` entries the
insertion-order-oldest entry is evicted before inserting — UNLESS the
oldest key is the empty string, which JavaScript's falsy `if (firstKey)`
check skips, in which case nothing is evicted and the entry is stored
into the still-full cache; and two gets of the same key within `ttlMs`
invoke `fetchFn` exactly once (the second is a pure hit).  (The eviction
clause below states the evicted key vanishes, for an oldest key distinct
from the inserted one; when they coincide the delete-then-reinsert is
observationally the update already covered by the storing clauses.) -/
theorem cache_aside_get_behavior {ε α : Type} (c : CacheAside α) (now now2 : Int)
    (key : String) (v : α) (entry : CacheEntry α) (p : String × CacheEntry α) :
    (mapGet c.cache key = some entry → now < entry.expiry →
      ∀ fetch : Except ε α, c.get now key fetch = (.ok entry.data, c, false)) ∧
    (mapGet c.cache key = none →
      c.get now key (Except.ok v : Except ε α) = (.ok v, c.set now key v, true) ∧
      mapGet (c.set now key v).cache key = some ⟨v, now + c.ttlMs⟩) ∧
    (mapGet c.cache key = some entry → entry.expiry ≤ now →
      c.get now key (Except.ok v : Except ε α) = (.ok v, c.set now key v, true) ∧
      mapGet (c.set now key v).cache key = some ⟨v, now + c.ttlMs⟩) ∧
    (c.cache.head? = some p → c.maxSize ≤ c.cache.length → p.1 ≠ "" → p.1 ≠ key →
      mapGet (c.set now key v).cache p.1 = none) ∧
    ((mapGet c.cache key = none ∨
        (mapGet c.cache key = some entry ∧ entry.expiry ≤ now)) →
      now2 < now + c.ttlMs →
      ∀ fetch2 : Except ε α,
        ((c.get now key (Except.ok v : Except ε α)).2.1).get now2 key fetch2
          = (.ok v, (c.get now key (Except.ok v : Except ε α)).2.1, false)) ∧
    (c.cache.head? = some p → c.maxSize ≤ c.cache.length → p.1 = "" →
      (c.set now key v).cache = mapSet c.cache key ⟨v, now + c.ttlMs⟩) := by
  have hstore : mapGet (c.set now key v).cache key = some ⟨v, now + c.ttlMs⟩ := by
    simp only [CacheAside.set]
    exact mapGet_mapSet_self _ _ _
  refine ⟨?_, ?_, ?_, ?_, ?_, ?_⟩
  · intro h hn fetch
    simp [CacheAside.get, h, hn]
  · intro h
    exact ⟨by simp [CacheAside.get, h], hstore⟩
  · intro h hexp
    exact ⟨by simp [CacheAside.get, h, not_lt.mpr hexp], hstore⟩
  · intro hh hs hne hnk
    simp only [CacheAside.set]
    rw [if_pos hs, hh]
    simp only [if_neg hne]
    rw [mapGet_mapSet_ne _ _ _ _ hnk]
    exact mapGet_mapDelete_self _ _
  · intro hm h2 fetch2
    have hstate : (c.get now key (Except.ok v : Except ε α)).2.1 = c.set now key v := by
      rcases hm with hm | ⟨hm, hexp⟩
      · simp [CacheAside.get, hm]
      · simp [CacheAside.get, hm, not_lt.mpr hexp]
    rw [hstate]
    simp [CacheAside.get, hstore, h2]
  · intro hh hs he
    simp only [CacheAside.set]
    rw [if_pos hs, hh]
    simp only [if_pos he]

/-- Witness for C8 (amended) at a concrete cache (`ttlMs = 100`,
`maxSize = 2`): a miss at time 0 fetches and stores 7 with expiry 100; a
second get at time 50 is a pure hit that does not fetch; at time 100 the
entry is expired and a fresh fetch stores 8; inserting a third key into a
full cache evicts the insertion-order-oldest key "a"; and on a full cache
whose oldest key is `""` the store skips eviction. -/
theorem cache_aside_get_behavior_witness :
    (let c0 : CacheAside Nat := ⟨100, 2, []⟩
     c0.get 0 "k" (Except.ok 7 : Except Unit Nat)
        = (.ok 7, c0.set 0 "k" 7, true) ∧
     mapGet (c0.set 0 "k" 7).cache "k" = some ⟨7, 0 + 100⟩ ∧
     ((c0.get 0 "k" (Except.ok 7 : Except Unit Nat)).2.1).get 50 "k"
        (Except.error () : Except Unit Nat)
        = (.ok 7, (c0.get 0 "k" (Except.ok 7 : Except Unit Nat)).2.1, false)) ∧
    (let c1 : CacheAside Nat := ⟨100, 2, [("k", ⟨7, 100⟩)]⟩
     c1.get 50 "k" (Except.error () : Except Unit Nat)
        = (.ok 7, c1, false) ∧
     c1.get 100 "k" (Except.ok 8 : Except Unit Nat)
        = (.ok 8, c1.set 100 "k" 8, true)) ∧
    (let c2 : CacheAside Nat := ⟨100, 2, [("a", ⟨1, 100⟩), ("b", ⟨2, 100⟩)]⟩
     mapGet (c2.set 5 "c" 9).cache "a" = none) ∧
    (let c3 : CacheAside Nat := ⟨100, 1, [("", ⟨1, 200⟩)]⟩
     (c3.set 0 "k" 7).cache = mapSet c3.cache "k" ⟨7, 0 + 100⟩) := by
  have h0 := cache_aside_get_behavior (ε := Unit) (α := Nat) ⟨100, 2, []⟩ 0 50
    "k" 7 ⟨7, 100⟩ ("", ⟨0, 0⟩)
  have h1 := cache_aside_get_behavior (ε := Unit) (α := Nat)
    ⟨100, 2, [("k", ⟨7, 100⟩)]⟩ 50 0 "k" 8 ⟨7, 100⟩ ("", ⟨0, 0⟩)
  have h2 := cache_aside_get_behavior (ε := Unit) (α := Nat)
    ⟨100, 2, [("k", ⟨7, 100⟩)]⟩ 100 0 "k" 8 ⟨7, 100⟩ ("", ⟨0, 0⟩)
  have h3 := cache_aside_get_behavior (ε := Unit) (α := Nat)
    ⟨100, 2, [("a", ⟨1, 100⟩), ("b", ⟨2, 100⟩)]⟩ 5 0 "c" 9 ⟨1, 100⟩
    ("a", ⟨1, 100⟩)
  have h4 := cache_aside_get_behavior (ε := Unit) (α := Nat)
    ⟨100, 1, [("", ⟨1, 200⟩)]⟩ 0 0 "k" 7 ⟨1, 200⟩ ("", ⟨1, 200⟩)
  refine ⟨⟨(h0.2.1 (by decide)).1, (h0.2.1 (by decide)).2,
    h0.2.2.2.2.1 (Or.inl (by decide)) (by decide) _⟩,
    ⟨?_, (h2.2.2.1 (by decide) (by decide)).1⟩,
    h3.2.2.2.1 rfl (by decide) (by decide) (by decide),
    h4.2.2.2.2.2 rfl (by decide) rfl⟩
  exact h1.1 (by decide) (by decide) _

/-- C10: when `fetchFn` throws on a cache-aside `get` (a miss or an
expired entry, so the fetch is reached), the error propagates unchanged,
the cache is not modified, and — since nothing was cached — any later
get of the same key (at a time no earlier than the failed one) invokes
`fetchFn` again rather than serving a cached failure. -/
theorem cache_aside_fetch_error_behavior {ε α : Type} (c : CacheAside α)
    (now now2 : Int) (key : String) (e : ε) (entry : CacheEntry α)
    (hmiss : mapGet c.cache key = none ∨
      (mapGet c.cache key = some entry ∧ entry.expiry ≤ now)) :
    c.get now key (Except.error e : Except ε α) = (.error e, c, true) ∧
    (now ≤ now2 → ∀ fetch2 : Except ε α,
      (((c.get now key (Except.error e : Except ε α)).2.1).get now2 key fetch2).2.2
        = true) := by
  have h1 : c.get now key (Except.error e : Except ε α) = (.error e, c, true) := by
    rcases hmiss with hm | ⟨hm, hexp⟩
    · simp [CacheAside.get, hm]
    · simp [CacheAside.get, hm, not_lt.mpr hexp]
  refine ⟨h1, ?_⟩
  intro hle fetch2
  rw [h1]
  rcases hmiss with hm | ⟨hm, hexp⟩
  · rcases fetch2 with e2 | v2 <;> simp [CacheAside.get, hm]
  · have hlt : ¬ now2 < entry.expiry := by omega
    rcases fetch2 with e2 | v2 <;> simp [CacheAside.get, hm, hlt]

/-- Witness for C10: on a cache whose only entry for "k" expired at 100,
a fetch failing at time 100 propagates the error with the cache
untouched, and a later get at time 150 invokes the fetch again. -/
theorem cache_aside_fetch_error_behavior_witness :
    (let c : CacheAside Nat := ⟨100, 2, [("k", ⟨7, 100⟩)]⟩
     c.get 100 "k" (Except.error () : Except Unit Nat) = (.error (), c, true) ∧
     (((c.get 100 "k" (Except.error () : Except Unit Nat)).2.1).get 150 "k"
        (Except.ok 8 : Except Unit Nat)).2.2 = true) := by
  have h := cache_aside_fetch_error_behavior (ε := Unit) (α := Nat)
    ⟨100, 2, [("k", ⟨7, 100⟩)]⟩ 100 150 "k" () ⟨7, 100⟩
    (Or.inr ⟨by decide, by decide⟩)
  exact ⟨h.1, h.2 (by decide) _⟩
